import Mathlib

/-!
# Chat widget (`src/static/main.js`)

A shallow embedding of the browser-side chat widget: the module-level
`sessionId`, the `addMessage` renderer, the form `submit` listener and the
`summarizeBtn` `click` listener.

The page is a `State` (children of `#messages`, the variable `sessionId`,
the value of `#messageInput`, and the log of `fetch` calls issued).  An
`async` listener is split at its `await`: the part that runs when the event
is dispatched, and the part that runs when the awaited promise settles.
Both parts are `Handler`s: state transformers that may finish by throwing.
State written before a throw is kept, as in JavaScript.

Values read from a response body are `JsVal`s, the values `JSON.parse` can
produce (plus `undefined`, the result of reading a missing property).
-/

namespace ChatWidget

/-! ## JavaScript values -/

/-- Exceptions raised in the embedded code. `typeError` is raised by the
language itself (property read on `null`, failed string conversion);
`parseError` and `networkError` are the reasons `res.json()` and `fetch`
reject with. -/
inductive JsError where
  | typeError
  | parseError
  | networkError
  deriving DecidableEq

/-- The bound `2 ^ 53` of the safe integers, `Number.MAX_SAFE_INTEGER + 1`. -/
def safeBound : Nat := 9007199254740992

/-- A safe integer: an integer of magnitude below `2 ^ 53`.  Each is
exactly one double, and ToString prints it as its plain decimal digits
(the exponent form only starts at `1e21`). -/
structure SafeInt where
  val : Int
  safe : val.natAbs < safeBound

/-- Values produced by `JSON.parse`, and `undefined`.  `num` covers the
numbers that are safe integers; the other numbers (fractions, magnitudes
from `2 ^ 53` on) are floating point and are left out.  `obj` lists the own
properties of a plain object, first binding of a key wins. -/
inductive JsVal where
  | undefined
  | null
  | bool (b : Bool)
  | num (n : SafeInt)
  | str (s : String)
  | arr (items : List JsVal)
  | obj (props : List (String × JsVal))

/-- ToBoolean, as used by `if (v)`, `!v` and `v || w`. -/
def truthy : JsVal → Bool
  | .undefined => false
  | .null => false
  | .bool b => b
  | .num n => n.val != 0
  | .str s => s != ""
  | .arr _ => true
  | .obj _ => true

/-- Value of the own property `key` in a property list, `undefined` when
there is none. -/
def lookupProp : List (String × JsVal) → String → JsVal
  | [], _ => .undefined
  | (k, v) :: rest, key => if k = key then v else lookupProp rest key

/-- Whether the property list has an own property `key`. -/
def hasOwn : List (String × JsVal) → String → Bool
  | [], _ => false
  | (k, _) :: rest, key => if k = key then true else hasOwn rest key

/-- The property read `v.key`, for a `key` that no built-in prototype
defines (`session_id`, `bot_response`, `summary`, `error`): a `TypeError` on
`null` and `undefined`, the own property on a plain object, `undefined` on
every other value. -/
def getProp (v : JsVal) (key : String) : Except JsError JsVal :=
  match v with
  | .undefined => .error .typeError
  | .null => .error .typeError
  | .obj props => .ok (lookupProp props key)
  | _ => .ok .undefined

/-- One round of `Array.prototype.join`: the text of the head element,
followed by a comma and the text of the tail when the tail is not empty. -/
def joinStep (head : Except JsError String) (tailEmpty : Bool)
    (tail : Except JsError String) : Except JsError String :=
  match head with
  | .error e => .error e
  | .ok x =>
    if tailEmpty then .ok x else
    match tail with
    | .error e => .error e
    | .ok y => .ok (x ++ "," ++ y)

mutual
/-- ToString on a parsed value.  A safe integer prints as its decimal
digits, with a leading `-` when negative.  A plain object prints as
`[object Object]` through `Object.prototype.toString`, unless an own
property `toString` (never callable in parsed JSON) shadows it, in which
case the conversion throws.  An array prints as its `join(",")`. -/
def toStr : JsVal → Except JsError String
  | .undefined => .ok "undefined"
  | .null => .ok "null"
  | .bool true => .ok "true"
  | .bool false => .ok "false"
  | .num n => .ok (toString n.val)
  | .str s => .ok s
  | .arr items => joinItems items
  | .obj props =>
    if hasOwn props "toString" then .error .typeError else .ok "[object Object]"
termination_by structural v => v
/-- `Array.prototype.join(",")`: `null` and `undefined` elements print as
the empty string, the others through ToString. -/
def joinItems : List JsVal → Except JsError String
  | [] => .ok ""
  | .undefined :: rest => joinStep (.ok "") rest.isEmpty (joinItems rest)
  | .null :: rest => joinStep (.ok "") rest.isEmpty (joinItems rest)
  | x :: rest => joinStep (toStr x) rest.isEmpty (joinItems rest)
termination_by structural l => l
end

/-- The string stored by `node.textContent = v`: `null` and `undefined`
clear the text, any other value goes through ToString. -/
def toTextContent : JsVal → Except JsError String
  | .undefined => .ok ""
  | .null => .ok ""
  | v => toStr v

/-- The expression `a || b`. -/
def jsOr (a b : JsVal) : JsVal := if truthy a then a else b

/-- The expression `pre + v` for a string `pre`. -/
def concatStr (pre : String) (v : JsVal) : Except JsError JsVal :=
  match toStr v with
  | .error e => .error e
  | .ok s => .ok (.str (pre ++ s))

/-- Code points removed by `String.prototype.trim`: the ECMAScript
WhiteSpace and LineTerminator characters. -/
def isJsWhiteSpace (c : Char) : Bool :=
  let n := c.toNat
  n == 0x09 || n == 0x0A || n == 0x0B || n == 0x0C || n == 0x0D || n == 0x20 ||
  n == 0xA0 || n == 0x1680 || (0x2000 ≤ n && n ≤ 0x200A) || n == 0x2028 ||
  n == 0x2029 || n == 0x202F || n == 0x205F || n == 0x3000 || n == 0xFEFF

/-- `String.prototype.trim` on a list of code points. -/
def trimChars (cs : List Char) : List Char :=
  ((cs.dropWhile isJsWhiteSpace).reverse.dropWhile isJsWhiteSpace).reverse

/-- `String.prototype.trim`. -/
def jsTrim (s : String) : String := ⟨trimChars s.data⟩

/-! ## Page state -/

/-- A `div` appended to `#messages`. -/
structure Message where
  className : String
  textContent : String
  deriving DecidableEq

/-- A `fetch` call: `chat` is the `POST` to `/chat` with body
`{user_query, session_id}`, `summarize` the `POST` to `/summarize` with body
`{session_id}`; the bodies are kept as they are before `JSON.stringify`. -/
inductive Request where
  | chat (user_query : String) (session_id : JsVal)
  | summarize (session_id : JsVal)

/-- The mutable state the script reads and writes. -/
structure State where
  /-- Children of `#messages`, in document order. -/
  messages : List Message
  /-- The module-level variable `sessionId`. -/
  sessionId : JsVal
  /-- The property `messageInput.value`. -/
  inputValue : String
  /-- The `fetch` calls issued so far, oldest first. -/
  requests : List Request

/-- A piece of script: runs on a state, ends normally or by throwing, and
leaves a state behind in both cases. -/
def Handler (α : Type) : Type := State → Except JsError α × State

namespace Handler

/-- Normal completion with a value. -/
def ret {α : Type} (a : α) : Handler α := fun st => (.ok a, st)

/-- Sequencing: a throw in the first part skips the second. -/
def seq {α β : Type} (m : Handler α) (f : α → Handler β) : Handler β := fun st =>
  match m st with
  | (.ok a, st1) => f a st1
  | (.error e, st1) => (.error e, st1)

/-- The statement `try { body } catch (err) { handler }`. -/
def attempt {α : Type} (body : Handler α) (handler : JsError → Handler α) : Handler α :=
  fun st =>
    match body st with
    | (.ok a, st1) => (.ok a, st1)
    | (.error e, st1) => handler e st1

/-- Evaluation of an expression that may throw and has no effect. -/
def eval {α : Type} (r : Except JsError α) : Handler α := fun st => (r, st)

/-- Read of the state. -/
def read : Handler State := fun st => (.ok st, st)

/-- Update of the state. -/
def update (f : State → State) : Handler Unit := fun st => (.ok (), f st)

end Handler

instance : Monad Handler where
  pure := Handler.ret
  bind := Handler.seq

/-! ## The script -/

/-- `addMessage(text, cls)`, lines 6-12: a new `div` with class
`'message ' + cls` and text `text` becomes the last child of `#messages`.
The assignment to `textContent` precedes `appendChild`, so a failed string
conversion leaves the list as it was.  (The scroll position set on line 11
is layout state and is not part of `State`.) -/
def addMessage (text : JsVal) (cls : String) : Handler Unit := do
  let className := "message " ++ cls
  let textContent ← Handler.eval (toTextContent text)
  Handler.update fun st =>
    { st with messages := st.messages ++ [{ className := className, textContent := textContent }] }

/-- The `submit` listener up to its first `await`, lines 15-26: trim the
field, return when nothing is left, else render the text, clear the field
and issue the `/chat` request.  (`e.preventDefault()` on line 15 does not
touch this state.) -/
def onSubmit : Handler Unit := do
  let st ← Handler.read
  let text := jsTrim st.inputValue
  if text = "" then
    return ()
  addMessage (.str text) "user"
  Handler.update fun st => { st with inputValue := "" }
  Handler.update fun st =>
    { st with requests := st.requests ++ [Request.chat text st.sessionId] }

/-- The `submit` listener after its `await`s, lines 27-32, given how
`fetch` and `res.json()` settled: `.ok data` is the parsed body, `.error`
a rejection of either promise. -/
def onChatSettled (outcome : Except JsError JsVal) : Handler Unit :=
  Handler.attempt
    (do
      let data ← Handler.eval outcome
      let sid ← Handler.eval (getProp data "session_id")
      if truthy sid then
        Handler.update fun st => { st with sessionId := sid }
      let reply ← Handler.eval (getProp data "bot_response")
      addMessage (jsOr reply (.str "No response")) "bot")
    (fun _ => addMessage (.str "Error contacting server") "bot")

/-- The `click` listener of `summarizeBtn` up to its first `await`, lines
42-51.  The result tells whether a request was issued, that is, whether the
listener is now suspended on it. -/
def onSummarizeClick : Handler Bool := do
  let st ← Handler.read
  if !truthy st.sessionId then
    addMessage (.str "No session to summarize yet.") "bot"
    return false
  Handler.update fun st =>
    { st with requests := st.requests ++ [Request.summarize st.sessionId] }
  return true

/-- The `click` listener after its `await`s, lines 52-56. -/
def onSummarizeSettled (outcome : Except JsError JsVal) : Handler Unit :=
  Handler.attempt
    (do
      let data ← Handler.eval outcome
      let summary ← Handler.eval (getProp data "summary")
      let shown ←
        if truthy summary then pure summary
        else Handler.eval (getProp data "error")
      let text ← Handler.eval (concatStr "Summary: " shown)
      addMessage text "bot")
    (fun _ => addMessage (.str "Error summarizing conversation") "bot")

/-- The page before the script runs: no message, no request, an empty
text field. -/
def blankPage : State :=
  { messages := [], sessionId := .null, inputValue := "", requests := [] }

/-- The top-level statements of the script: `let sessionId = null` on
line 4 and the welcome message on line 36. -/
def onLoad : Handler Unit := do
  Handler.update fun st => { st with sessionId := .null }
  addMessage (.str "Welcome! Ask me anything about the product or policies.") "bot"

/-- The state once the script has loaded. -/
def init : State := (onLoad blankPage).2

/-! ## Events -/

/-- What can happen to the page after load. -/
inductive Event where
  /-- The user edits the text field. -/
  | input (value : String)
  /-- The form is submitted. -/
  | submit
  /-- A `/chat` request settles. -/
  | chatSettled (outcome : Except JsError JsVal)
  /-- The summarize button is clicked. -/
  | summarizeClick
  /-- A `/summarize` request settles. -/
  | summarizeSettled (outcome : Except JsError JsVal)

/-- The state after the listener for one event has run. -/
def step (st : State) : Event → State
  | .input value => { st with inputValue := value }
  | .submit => (onSubmit st).2
  | .chatSettled outcome => (onChatSettled outcome st).2
  | .summarizeClick => (onSummarizeClick st).2
  | .summarizeSettled outcome => (onSummarizeSettled outcome st).2

/-- The state after a sequence of events, oldest first.  Settle events are
accepted at any point, whether or not a request is outstanding, so the
states reached this way include every state the page can be in. -/
def run (st : State) (events : List Event) : State := events.foldl step st

/-- The session identifiers carried by the parsed `/chat` responses among
the events: the values of their `session_id` fields.  A body without that
field (the read gives `undefined`) and a `null` body (the read throws) carry
none. -/
def receivedSessionIds : List Event → List JsVal
  | [] => []
  | .chatSettled (.ok data) :: rest =>
    match getProp data "session_id" with
    | .ok .undefined => receivedSessionIds rest
    | .ok sid => sid :: receivedSessionIds rest
    | .error _ => receivedSessionIds rest
  | _ :: rest => receivedSessionIds rest

/-! ## Sample responses and states -/

/-- The body `{"session_id": "abc123", "bot_response": "Hi there"}`. -/
def helloReply : JsVal :=
  .obj [("session_id", .str "abc123"), ("bot_response", .str "Hi there")]

/-- The body `{"session_id": "", "bot_response": "Hi there"}`. -/
def emptySessionReply : JsVal :=
  .obj [("session_id", .str ""), ("bot_response", .str "Hi there")]

/-- The body `{"session_id": "abc123", "bot_response": ""}`. -/
def emptyTextReply : JsVal :=
  .obj [("session_id", .str "abc123"), ("bot_response", .str "")]

/-- The body `{"summary": "short summary"}`. -/
def shortSummaryReply : JsVal := .obj [("summary", .str "short summary")]

/-- The body `{"error": "bad"}`. -/
def errorOnlyReply : JsVal := .obj [("error", .str "bad")]

/-- The body `{"summary": {"toString": 1}}`, whose `summary` has no string
form. -/
def opaqueSummaryReply : JsVal := .obj [("summary", .obj [("toString", .num ⟨1, by decide⟩)])]

/-- The body `{"bot_response": {"toString": 1}}`, whose `bot_response` has
no string form. -/
def opaqueTextReply : JsVal :=
  .obj [("bot_response", .obj [("toString", .num ⟨1, by decide⟩)])]

/-- The body `{"bot_response": "x"}`, without a `session_id`. -/
def noSessionReply : JsVal := .obj [("bot_response", .str "x")]

/-- The body `{"summary": "", "error": "bad"}`. -/
def emptySummaryReply : JsVal :=
  .obj [("summary", .str ""), ("error", .str "bad")]

/-- The page with `  Hello ` typed into the field, right after load. -/
def typedHello : State := step init (.input "  Hello ")

/-- The page with only blanks typed into the field, right after load. -/
def typedBlanks : State := step init (.input "   ")

/-- The page once `Hello` has been submitted and not yet answered. -/
def helloSent : State := step typedHello .submit

/-- The page after one complete chat turn answered by `helloReply`. -/
def firstTurnDone : State := step helloSent (.chatSettled (.ok helloReply))

/-- The page after a second message has been submitted in the session
`abc123`. -/
def secondSent : State := run firstTurnDone [.input "again", .submit]

/-- The page after the summarize button has been clicked in the session
`abc123`. -/
def summarizeSent : State := step firstTurnDone .summarizeClick

/-! ## Running a handler on a state -/

theorem bind_apply {α β : Type} (m : Handler α) (f : α → Handler β) (st : State) :
    (m >>= f) st = match m st with
      | (.ok a, st1) => f a st1
      | (.error e, st1) => (.error e, st1) := rfl

theorem pure_apply {α : Type} (a : α) (st : State) :
    (pure a : Handler α) st = (.ok a, st) := rfl

theorem eval_apply {α : Type} (r : Except JsError α) (st : State) :
    Handler.eval r st = (r, st) := rfl

theorem update_apply (f : State → State) (st : State) :
    Handler.update f st = (.ok (), f st) := rfl

theorem read_apply (st : State) : Handler.read st = (.ok st, st) := rfl

theorem attempt_apply {α : Type} (body : Handler α) (h : JsError → Handler α)
    (st : State) :
    Handler.attempt body h st = match body st with
      | (.ok a, st1) => (.ok a, st1)
      | (.error e, st1) => h e st1 := rfl

/-! ## Values -/

theorem toTextContent_str (s : String) : toTextContent (.str s) = .ok s := rfl

theorem toStr_str (s : String) : toStr (.str s) = .ok s := rfl

/-- On a truthy value the text stored by `textContent` is its ToString. -/
theorem toTextContent_of_truthy (v : JsVal) (h : truthy v = true) :
    toTextContent v = toStr v := by
  cases v <;> first | rfl | simp [truthy] at h

/-- A truthy value is not `null`. -/
theorem ne_null_of_truthy (v : JsVal) (h : truthy v = true) : v ≠ .null := by
  intro hv
  subst hv
  simp [truthy] at h

theorem getProp_ok_of_ok (data : JsVal) (k k2 : String) (v : JsVal)
    (h : getProp data k = .ok v) : ∃ w, getProp data k2 = .ok w := by
  cases data <;> simp [getProp] at h ⊢

/-! ## Trimming -/

theorem trimChars_eq_nil_iff (cs : List Char) :
    trimChars cs = [] ↔ ∀ c ∈ cs, isJsWhiteSpace c = true := by
  unfold trimChars
  rw [List.reverse_eq_nil_iff, List.dropWhile_eq_nil_iff]
  constructor
  · intro h
    by_contra hne
    have hne2 : cs.dropWhile isJsWhiteSpace ≠ [] := by
      rw [Ne, List.dropWhile_eq_nil_iff]
      exact hne
    have hhead := List.head_dropWhile_not isJsWhiteSpace cs hne2
    have hmem : (cs.dropWhile isJsWhiteSpace).head hne2 ∈
        (cs.dropWhile isJsWhiteSpace).reverse :=
      List.mem_reverse.mpr (List.head_mem hne2)
    rw [h _ hmem] at hhead
    exact Bool.noConfusion hhead
  · intro h
    have : cs.dropWhile isJsWhiteSpace = [] := List.dropWhile_eq_nil_iff.mpr h
    rw [this]
    intro x hx
    simp at hx

/-- Trimming leaves nothing exactly when every code point is white space. -/
theorem jsTrim_eq_empty_iff (s : String) :
    jsTrim s = "" ↔ ∀ c ∈ s.data, isJsWhiteSpace c = true := by
  rw [← trimChars_eq_nil_iff]
  unfold jsTrim
  constructor
  · intro h
    exact congrArg String.data h
  · intro h
    rw [h]

/-! ## What each handler does -/

theorem addMessage_str (s cls : String) (st : State) :
    addMessage (.str s) cls st =
      (.ok (), { st with messages := st.messages ++ [⟨"message " ++ cls, s⟩] }) := rfl

theorem addMessage_eq (v : JsVal) (cls : String) (st : State) :
    addMessage v cls st =
      match toTextContent v with
      | .ok s => (.ok (), { st with messages := st.messages ++ [⟨"message " ++ cls, s⟩] })
      | .error e => (.error e, st) := by
  simp only [addMessage, bind_apply, eval_apply, update_apply]
  cases toTextContent v <;> rfl

theorem onSubmit_blank (st : State) (h : jsTrim st.inputValue = "") :
    onSubmit st = (.ok (), st) := by
  simp [onSubmit, bind_apply, read_apply, pure_apply, h]

theorem onSubmit_text (st : State) (h : jsTrim st.inputValue ≠ "") :
    onSubmit st = (.ok (),
      { messages := st.messages ++ [⟨"message user", jsTrim st.inputValue⟩],
        sessionId := st.sessionId,
        inputValue := "",
        requests := st.requests ++ [Request.chat (jsTrim st.inputValue) st.sessionId] }) := by
  simp [onSubmit, bind_apply, read_apply, pure_apply, update_apply, addMessage_str, h]

theorem onChatSettled_error (e : JsError) (st : State) :
    onChatSettled (.error e) st =
      (.ok (), { st with messages :=
        st.messages ++ [⟨"message bot", "Error contacting server"⟩] }) := rfl

/-- The `/chat` continuation on a parsed body, case by case. -/
theorem onChatSettled_ok (data : JsVal) (st : State) :
    onChatSettled (.ok data) st =
      match getProp data "session_id" with
      | .error _ =>
        (.ok (), { st with messages :=
          st.messages ++ [⟨"message bot", "Error contacting server"⟩] })
      | .ok sid =>
        match getProp data "bot_response" with
        | .error _ =>
          (.ok (), { messages := st.messages ++ [⟨"message bot", "Error contacting server"⟩],
                     sessionId := if truthy sid then sid else st.sessionId,
                     inputValue := st.inputValue, requests := st.requests })
        | .ok reply =>
          match toTextContent (jsOr reply (.str "No response")) with
          | .error _ =>
            (.ok (), { messages := st.messages ++ [⟨"message bot", "Error contacting server"⟩],
                       sessionId := if truthy sid then sid else st.sessionId,
                       inputValue := st.inputValue, requests := st.requests })
          | .ok s =>
            (.ok (), { messages := st.messages ++ [⟨"message bot", s⟩],
                       sessionId := if truthy sid then sid else st.sessionId,
                       inputValue := st.inputValue, requests := st.requests }) := by
  simp only [onChatSettled, attempt_apply, bind_apply, eval_apply, addMessage_eq,
    toTextContent_str]
  cases h1 : getProp data "session_id" with
  | error e => rfl
  | ok sid =>
    cases h2 : getProp data "bot_response" with
    | error e =>
      by_cases ht : truthy sid <;>
        simp [ht, update_apply, pure_apply, bind_apply, eval_apply, addMessage_eq,
          toTextContent_str]
    | ok reply =>
      cases h3 : toTextContent (jsOr reply (.str "No response")) with
      | error e =>
        by_cases ht : truthy sid <;>
          simp [ht, update_apply, pure_apply, bind_apply, eval_apply, addMessage_eq,
            toTextContent_str, h3]
      | ok s =>
        by_cases ht : truthy sid <;>
          simp [ht, update_apply, pure_apply, bind_apply, eval_apply, addMessage_eq,
            toTextContent_str, h3]

theorem onSummarizeClick_falsy (st : State) (h : truthy st.sessionId = false) :
    onSummarizeClick st =
      (.ok false, { st with messages :=
        st.messages ++ [⟨"message bot", "No session to summarize yet."⟩] }) := by
  simp [onSummarizeClick, bind_apply, read_apply, pure_apply, addMessage_str, h]

theorem onSummarizeClick_truthy (st : State) (h : truthy st.sessionId = true) :
    onSummarizeClick st =
      (.ok true, { st with requests :=
        st.requests ++ [Request.summarize st.sessionId] }) := by
  simp [onSummarizeClick, bind_apply, read_apply, pure_apply, update_apply, h]

theorem onSummarizeSettled_error (e : JsError) (st : State) :
    onSummarizeSettled (.error e) st =
      (.ok (), { st with messages :=
        st.messages ++ [⟨"message bot", "Error summarizing conversation"⟩] }) := rfl

/-- The `/summarize` continuation on a parsed body, case by case. -/
theorem onSummarizeSettled_ok (data : JsVal) (st : State) :
    onSummarizeSettled (.ok data) st =
      match getProp data "summary" with
      | .error _ =>
        (.ok (), { st with messages :=
          st.messages ++ [⟨"message bot", "Error summarizing conversation"⟩] })
      | .ok summary =>
        match (if truthy summary then .ok summary else getProp data "error") with
        | .error _ =>
          (.ok (), { st with messages :=
            st.messages ++ [⟨"message bot", "Error summarizing conversation"⟩] })
        | .ok shown =>
          match toStr shown with
          | .error _ =>
            (.ok (), { st with messages :=
              st.messages ++ [⟨"message bot", "Error summarizing conversation"⟩] })
          | .ok s =>
            (.ok (), { st with messages :=
              st.messages ++ [⟨"message bot", "Summary: " ++ s⟩] }) := by
  simp only [onSummarizeSettled, attempt_apply, bind_apply, eval_apply, addMessage_eq,
    toTextContent_str]
  cases h1 : getProp data "summary" with
  | error e => rfl
  | ok summary =>
    by_cases ht : truthy summary
    · cases h3 : toStr summary with
      | error e =>
        simp [ht, pure_apply, bind_apply, eval_apply, addMessage_eq, toTextContent_str,
          concatStr, h3]
      | ok s =>
        simp [ht, pure_apply, bind_apply, eval_apply, addMessage_eq, toTextContent_str,
          concatStr, h3]
    · cases h2 : getProp data "error" with
      | error e =>
        simp [ht, pure_apply, bind_apply, eval_apply, addMessage_eq, toTextContent_str, h2]
      | ok shown =>
        cases h3 : toStr shown with
        | error e =>
          simp [ht, pure_apply, bind_apply, eval_apply, addMessage_eq, toTextContent_str,
            concatStr, h2, h3]
        | ok s =>
          simp [ht, pure_apply, bind_apply, eval_apply, addMessage_eq, toTextContent_str,
            concatStr, h2, h3]

/-! ## Effect of a step on the session identifier and on the message list -/

theorem onChatSettled_sessionId (data : JsVal) (st : State) :
    (onChatSettled (.ok data) st).2.sessionId =
      match getProp data "session_id" with
      | .ok sid => if truthy sid then sid else st.sessionId
      | .error _ => st.sessionId := by
  rw [onChatSettled_ok]
  cases getProp data "session_id" with
  | error e => rfl
  | ok sid =>
    dsimp only
    cases getProp data "bot_response" with
    | error e => rfl
    | ok reply =>
      dsimp only
      cases toTextContent (jsOr reply (.str "No response")) <;> rfl

theorem onChatSettled_messages (outcome : Except JsError JsVal) (st : State) :
    ∃ text, (onChatSettled outcome st).2.messages =
      st.messages ++ [⟨"message bot", text⟩] := by
  cases outcome with
  | error e => exact ⟨_, rfl⟩
  | ok data =>
    rw [onChatSettled_ok]
    cases getProp data "session_id" with
    | error e => exact ⟨_, rfl⟩
    | ok sid =>
      dsimp only
      cases getProp data "bot_response" with
      | error e => exact ⟨_, rfl⟩
      | ok reply =>
        dsimp only
        cases toTextContent (jsOr reply (.str "No response")) <;> exact ⟨_, rfl⟩

theorem onChatSettled_completes (outcome : Except JsError JsVal) (st : State) :
    (onChatSettled outcome st).1 = .ok () := by
  cases outcome with
  | error e => rfl
  | ok data =>
    rw [onChatSettled_ok]
    cases getProp data "session_id" with
    | error e => rfl
    | ok sid =>
      dsimp only
      cases getProp data "bot_response" with
      | error e => rfl
      | ok reply =>
        dsimp only
        cases toTextContent (jsOr reply (.str "No response")) <;> rfl

theorem onSummarizeSettled_state (outcome : Except JsError JsVal) (st : State) :
    ∃ text, onSummarizeSettled outcome st =
      (.ok (), { st with messages := st.messages ++ [⟨"message bot", text⟩] }) := by
  cases outcome with
  | error e => exact ⟨_, rfl⟩
  | ok data =>
    rw [onSummarizeSettled_ok]
    cases getProp data "summary" with
    | error e => exact ⟨_, rfl⟩
    | ok summary =>
      dsimp only
      cases (if truthy summary then Except.ok summary else getProp data "error") with
      | error e => exact ⟨_, rfl⟩
      | ok shown =>
        dsimp only
        cases toStr shown <;> exact ⟨_, rfl⟩

theorem onSubmit_sessionId (st : State) : (onSubmit st).2.sessionId = st.sessionId := by
  by_cases h : jsTrim st.inputValue = ""
  · rw [onSubmit_blank st h]
  · rw [onSubmit_text st h]

theorem onSummarizeClick_sessionId (st : State) :
    (onSummarizeClick st).2.sessionId = st.sessionId := by
  cases h : truthy st.sessionId
  · rw [onSummarizeClick_falsy st h]
  · rw [onSummarizeClick_truthy st h]

theorem onSummarizeSettled_sessionId (outcome : Except JsError JsVal) (st : State) :
    (onSummarizeSettled outcome st).2.sessionId = st.sessionId := by
  obtain ⟨text, h⟩ := onSummarizeSettled_state outcome st
  rw [h]

/-- A step keeps the session identifier, unless it handles a parsed `/chat`
response whose `session_id` is truthy, which it then stores. -/
theorem step_sessionId (st : State) (ev : Event) :
    (step st ev).sessionId = st.sessionId ∨
      ∃ data sid, ev = .chatSettled (.ok data) ∧ getProp data "session_id" = .ok sid ∧
        truthy sid = true ∧ (step st ev).sessionId = sid := by
  cases ev with
  | input v => exact Or.inl rfl
  | submit => exact Or.inl (onSubmit_sessionId st)
  | summarizeClick => exact Or.inl (onSummarizeClick_sessionId st)
  | summarizeSettled outcome => exact Or.inl (onSummarizeSettled_sessionId outcome st)
  | chatSettled outcome =>
    cases outcome with
    | error e => exact Or.inl rfl
    | ok data =>
      have h := onChatSettled_sessionId data st
      cases hg : getProp data "session_id" with
      | error e =>
        rw [hg] at h
        exact Or.inl h
      | ok sid =>
        rw [hg] at h
        cases ht : truthy sid with
        | false =>
          simp only [ht] at h
          exact Or.inl h
        | true =>
          simp only [ht] at h
          exact Or.inr ⟨data, sid, rfl, hg, ht, h⟩

/-- A step leaves the messages already rendered in place and adds at most
new ones after them. -/
theorem step_messages (st : State) (ev : Event) :
    ∃ added, (step st ev).messages = st.messages ++ added := by
  cases ev with
  | input v => exact ⟨[], (List.append_nil _).symm⟩
  | submit =>
    show ∃ added, (onSubmit st).2.messages = st.messages ++ added
    by_cases h : jsTrim st.inputValue = ""
    · rw [onSubmit_blank st h]
      exact ⟨[], (List.append_nil _).symm⟩
    · rw [onSubmit_text st h]
      exact ⟨_, rfl⟩
  | summarizeClick =>
    show ∃ added, (onSummarizeClick st).2.messages = st.messages ++ added
    cases h : truthy st.sessionId
    · rw [onSummarizeClick_falsy st h]
      exact ⟨_, rfl⟩
    · rw [onSummarizeClick_truthy st h]
      exact ⟨[], (List.append_nil _).symm⟩
  | summarizeSettled outcome =>
    obtain ⟨text, h⟩ := onSummarizeSettled_state outcome st
    show ∃ added, (onSummarizeSettled outcome st).2.messages = st.messages ++ added
    rw [h]
    exact ⟨_, rfl⟩
  | chatSettled outcome =>
    obtain ⟨text, h⟩ := onChatSettled_messages outcome st
    exact ⟨_, h⟩

theorem run_cons (st : State) (ev : Event) (evs : List Event) :
    run st (ev :: evs) = run (step st ev) evs := rfl

theorem run_messages (st : State) (evs : List Event) :
    ∃ added, (run st evs).messages = st.messages ++ added := by
  induction evs generalizing st with
  | nil => exact ⟨[], (List.append_nil _).symm⟩
  | cons ev evs ih =>
    obtain ⟨a1, h1⟩ := step_messages st ev
    obtain ⟨a2, h2⟩ := ih (step st ev)
    refine ⟨a1 ++ a2, ?_⟩
    rw [run_cons, h2, h1, List.append_assoc]

theorem receivedSessionIds_mono (ev : Event) (evs : List Event) (v : JsVal)
    (h : v ∈ receivedSessionIds evs) : v ∈ receivedSessionIds (ev :: evs) := by
  cases ev with
  | input v => exact h
  | submit => exact h
  | summarizeClick => exact h
  | summarizeSettled outcome => exact h
  | chatSettled outcome =>
    cases outcome with
    | error e => exact h
    | ok data =>
      simp only [receivedSessionIds]
      cases getProp data "session_id" with
      | error e => exact h
      | ok sid =>
        cases sid <;> first | exact h | exact List.mem_cons_of_mem _ h

/-- A truthy `session_id` of a parsed chat response is among the received
identifiers. -/
theorem receivedSessionIds_head (data sid : JsVal) (evs : List Event)
    (hg : getProp data "session_id" = .ok sid) (ht : truthy sid = true) :
    sid ∈ receivedSessionIds (.chatSettled (.ok data) :: evs) := by
  simp only [receivedSessionIds, hg]
  cases sid <;> first | exact List.mem_cons_self _ _ | simp [truthy] at ht

theorem run_sessionId (st : State) (evs : List Event) :
    (run st evs).sessionId = st.sessionId ∨
      (truthy (run st evs).sessionId = true ∧
        (run st evs).sessionId ∈ receivedSessionIds evs) := by
  induction evs generalizing st with
  | nil => exact Or.inl rfl
  | cons ev evs ih =>
    rw [run_cons]
    rcases ih (step st ev) with h | ⟨ht, h⟩
    · rcases step_sessionId st ev with h2 | ⟨data, sid, hev, hg, ht, hs⟩
      · exact Or.inl (h.trans h2)
      · refine Or.inr ?_
        rw [h, hs, hev]
        exact ⟨ht, receivedSessionIds_head data sid evs hg ht⟩
    · exact Or.inr ⟨ht, receivedSessionIds_mono ev evs _ h⟩

theorem step_sessionId_truthy (st : State) (ev : Event)
    (h : truthy st.sessionId = true) : truthy (step st ev).sessionId = true := by
  rcases step_sessionId st ev with h2 | ⟨_, sid, _, _, ht, hs⟩
  · rw [h2]
    exact h
  · rw [hs]
    exact ht

theorem run_sessionId_truthy (st : State) (evs : List Event)
    (h : truthy st.sessionId = true) : truthy (run st evs).sessionId = true := by
  induction evs generalizing st with
  | nil => exact h
  | cons ev evs ih =>
    rw [run_cons]
    exact ih (step st ev) (step_sessionId_truthy st ev h)

theorem step_sessionId_ne_null (st : State) (ev : Event) (h : st.sessionId ≠ .null) :
    (step st ev).sessionId ≠ .null := by
  rcases step_sessionId st ev with h2 | ⟨_, sid, _, _, ht, hs⟩
  · rw [h2]
    exact h
  · rw [hs]
    exact ne_null_of_truthy sid ht

theorem run_sessionId_ne_null (st : State) (evs : List Event) (h : st.sessionId ≠ .null) :
    (run st evs).sessionId ≠ .null := by
  induction evs generalizing st with
  | nil => exact h
  | cons ev evs ih =>
    rw [run_cons]
    exact ih (step st ev) (step_sessionId_ne_null st ev h)

/-! ## The claims -/

/-- C1: when the text field is empty after trimming (it is empty or holds
only white space, see `jsTrim_eq_empty_iff`), the submit handler completes
and leaves the whole state as it was: same message list, same session id,
same field value, and no request added to the log. -/
theorem submit_blank_is_noop (st : State) (h : jsTrim st.inputValue = "") :
    onSubmit st = (.ok (), st) ∧
      (onSubmit st).2.messages = st.messages ∧
      (onSubmit st).2.sessionId = st.sessionId ∧
      (onSubmit st).2.inputValue = st.inputValue ∧
      (onSubmit st).2.requests = st.requests := by
  rw [onSubmit_blank st h]
  exact ⟨rfl, rfl, rfl, rfl, rfl⟩

theorem submit_blank_is_noop_witness :
    jsTrim typedBlanks.inputValue = "" ∧
      typedBlanks.inputValue = "   " ∧
      onSubmit typedBlanks = (.ok (), typedBlanks) :=
  ⟨by decide, by decide, (submit_blank_is_noop typedBlanks (by decide)).1⟩

/-- C2: when the trimmed field value `t` is not empty, the submit handler,
up to the point where it waits for the response, appends the single message
`t` with class `message user` at the end of the list, sets the field to the
empty string, adds the single request `/chat` with body
`{user_query: t, session_id: s}` for the current session id `s`, and leaves
`s` as it is; after load `s` is `null`. -/
theorem submit_text_renders_and_sends (st : State) (h : jsTrim st.inputValue ≠ "") :
    onSubmit st = (.ok (),
      { messages := st.messages ++ [⟨"message user", jsTrim st.inputValue⟩],
        sessionId := st.sessionId,
        inputValue := "",
        requests := st.requests ++ [Request.chat (jsTrim st.inputValue) st.sessionId] }) ∧
      init.sessionId = .null := by
  rw [onSubmit_text st h]
  exact ⟨rfl, rfl⟩

theorem submit_text_renders_and_sends_witness :
    jsTrim typedHello.inputValue ≠ "" ∧
      onSubmit typedHello = (.ok (),
        { messages := init.messages ++ [⟨"message user", "Hello"⟩],
          sessionId := .null,
          inputValue := "",
          requests := [Request.chat "Hello" .null] }) :=
  ⟨by decide, (submit_text_renders_and_sends typedHello (by decide)).1⟩

/-- C3, as stated, fails: in the session `abc123`, the parsed response
`{"session_id": "", "bot_response": "Hi there"}` carries the session
identifier `""`, and the stored session id is still `abc123` afterwards, not
`""`. -/
theorem chat_empty_session_id_not_stored :
    getProp emptySessionReply "session_id" = .ok (.str "") ∧
      secondSent.sessionId = .str "abc123" ∧
      (onChatSettled (.ok emptySessionReply) secondSent).2.sessionId = .str "abc123" ∧
      (onChatSettled (.ok emptySessionReply) secondSent).2.sessionId ≠ .str "" := by
  refine ⟨rfl, rfl, rfl, ?_⟩
  intro h
  have h2 : (JsVal.str "abc123") = JsVal.str "" := h
  exact absurd (JsVal.str.inj h2) (by decide)

/-- C3, amended: for every parsed chat response, a truthy `session_id` (for
a string: a non-empty one) is the stored session id once the handler has
completed, whatever was stored before; when `session_id` is absent or falsy
(the empty string, `null`, `0`, `false`), or the body is `null` so that
reading it throws, the stored session id is unchanged. -/
theorem chat_response_session_id (st : State) (data : JsVal) :
    (∀ x, getProp data "session_id" = .ok x → truthy x = true →
        (onChatSettled (.ok data) st).2.sessionId = x) ∧
      (∀ x, getProp data "session_id" = .ok x → truthy x = false →
        (onChatSettled (.ok data) st).2.sessionId = st.sessionId) ∧
      (∀ e, getProp data "session_id" = .error e →
        (onChatSettled (.ok data) st).2.sessionId = st.sessionId) := by
  refine ⟨?_, ?_, ?_⟩
  · intro x hx ht
    rw [onChatSettled_sessionId, hx]
    simp only [ht, if_true]
  · intro x hx ht
    rw [onChatSettled_sessionId, hx]
    simp [ht]
  · intro e he
    rw [onChatSettled_sessionId, he]

theorem chat_response_session_id_witness :
    (onChatSettled (.ok helloReply) helloSent).2.sessionId = .str "abc123" ∧
      (onChatSettled (.ok emptySessionReply) secondSent).2.sessionId =
        secondSent.sessionId ∧
      (onChatSettled (.ok .null) secondSent).2.sessionId = secondSent.sessionId :=
  ⟨(chat_response_session_id helloSent helloReply).1 (.str "abc123") rfl rfl,
   (chat_response_session_id secondSent emptySessionReply).2.1 (.str "") rfl rfl,
   (chat_response_session_id secondSent .null).2.2 .typeError rfl⟩

/-- C4, as stated, fails: the parsed response
`{"session_id": "abc123", "bot_response": ""}` carries the `bot_response`
`""`, and the message appended has the text `No response`, not `""`. -/
theorem chat_empty_bot_response_shows_fallback :
    getProp emptyTextReply "bot_response" = .ok (.str "") ∧
      (onChatSettled (.ok emptyTextReply) helloSent).2.messages =
        helloSent.messages ++ [⟨"message bot", "No response"⟩] ∧
      (onChatSettled (.ok emptyTextReply) helloSent).2.messages ≠
        helloSent.messages ++ [⟨"message bot", ""⟩] := by
  refine ⟨rfl, rfl, ?_⟩
  decide

/-- C4, amended: for every parsed chat response the handler completes and
appends exactly one message with class `message bot`.  Its text is the
string form of `bot_response` when that value is truthy (for a string:
non-empty), and the literal `No response` when `bot_response` is absent or
falsy (the empty string included); when the body is `null`, so that reading
it throws, or a truthy `bot_response` has no string form, the text is
`Error contacting server`. -/
theorem chat_response_rendering (st : State) (data : JsVal) :
    (onChatSettled (.ok data) st).1 = .ok () ∧
      (∃ text, (onChatSettled (.ok data) st).2.messages =
        st.messages ++ [⟨"message bot", text⟩]) ∧
      (∀ reply s, getProp data "bot_response" = .ok reply → truthy reply = true →
        toStr reply = .ok s →
        (onChatSettled (.ok data) st).2.messages = st.messages ++ [⟨"message bot", s⟩]) ∧
      (∀ reply, getProp data "bot_response" = .ok reply → truthy reply = false →
        (onChatSettled (.ok data) st).2.messages =
          st.messages ++ [⟨"message bot", "No response"⟩]) ∧
      (∀ reply e, getProp data "bot_response" = .ok reply → truthy reply = true →
        toStr reply = .error e →
        (onChatSettled (.ok data) st).2.messages =
          st.messages ++ [⟨"message bot", "Error contacting server"⟩]) ∧
      (∀ e, getProp data "bot_response" = .error e →
        (onChatSettled (.ok data) st).2.messages =
          st.messages ++ [⟨"message bot", "Error contacting server"⟩]) := by
  refine ⟨onChatSettled_completes _ st, onChatSettled_messages _ st, ?_, ?_, ?_, ?_⟩
  · intro reply s hr ht hs
    obtain ⟨sid, hsid⟩ := getProp_ok_of_ok data "bot_response" "session_id" reply hr
    have htc : toTextContent (jsOr reply (.str "No response")) = .ok s := by
      simp only [jsOr, ht, if_true]
      rw [toTextContent_of_truthy reply ht, hs]
    rw [onChatSettled_ok, hsid, hr]
    simp only [htc]
  · intro reply hr ht
    obtain ⟨sid, hsid⟩ := getProp_ok_of_ok data "bot_response" "session_id" reply hr
    have htc : toTextContent (jsOr reply (.str "No response")) = .ok "No response" := by
      simp [jsOr, ht, toTextContent_str]
    rw [onChatSettled_ok, hsid, hr]
    simp only [htc]
  · intro reply e hr ht hs
    obtain ⟨sid, hsid⟩ := getProp_ok_of_ok data "bot_response" "session_id" reply hr
    have htc : toTextContent (jsOr reply (.str "No response")) = .error e := by
      simp only [jsOr, ht, if_true]
      rw [toTextContent_of_truthy reply ht, hs]
    rw [onChatSettled_ok, hsid, hr]
    simp only [htc]
  · intro e he
    rw [onChatSettled_ok]
    cases hsid : getProp data "session_id" with
    | error e2 => rfl
    | ok sid =>
      dsimp only
      rw [he]

theorem chat_response_rendering_witness :
    (onChatSettled (.ok helloReply) helloSent).2.messages =
        helloSent.messages ++ [⟨"message bot", "Hi there"⟩] ∧
      (onChatSettled (.ok emptyTextReply) helloSent).2.messages =
        helloSent.messages ++ [⟨"message bot", "No response"⟩] ∧
      (onChatSettled (.ok opaqueTextReply) helloSent).2.messages =
        helloSent.messages ++ [⟨"message bot", "Error contacting server"⟩] ∧
      (onChatSettled (.ok .null) helloSent).2.messages =
        helloSent.messages ++ [⟨"message bot", "Error contacting server"⟩] :=
  ⟨(chat_response_rendering helloSent helloReply).2.2.1 (.str "Hi there") "Hi there"
      rfl rfl rfl,
   (chat_response_rendering helloSent emptyTextReply).2.2.2.1 (.str "") rfl rfl,
   (chat_response_rendering helloSent opaqueTextReply).2.2.2.2.1
      (.obj [("toString", .num ⟨1, by decide⟩)]) .typeError rfl rfl rfl,
   (chat_response_rendering helloSent .null).2.2.2.2.2 .typeError rfl⟩

/-- C5: when the chat request fails (either promise rejects, for whatever
reason `e`), the handler completes without throwing, appends the single
message `Error contacting server` with class `message bot`, and the stored
session id is the one from before. -/
theorem chat_failure_renders_error (st : State) (e : JsError) :
    (onChatSettled (.error e) st).1 = .ok () ∧
      (onChatSettled (.error e) st).2.messages =
        st.messages ++ [⟨"message bot", "Error contacting server"⟩] ∧
      (onChatSettled (.error e) st).2.sessionId = st.sessionId ∧
      (onChatSettled (.error e) st).2.requests = st.requests := by
  rw [onChatSettled_error]
  exact ⟨rfl, rfl, rfl, rfl⟩

/-- C6: with `sessionId` equal to `null`, the summarize click handler
appends the single message `No session to summarize yet.` with class
`message bot`, issues no request (it returns without waiting on one), and
`sessionId` is still `null`. -/
theorem summarize_without_session (st : State) (h : st.sessionId = .null) :
    onSummarizeClick st =
        (.ok false, { st with messages :=
          st.messages ++ [⟨"message bot", "No session to summarize yet."⟩] }) ∧
      (onSummarizeClick st).2.requests = st.requests ∧
      (onSummarizeClick st).2.sessionId = .null := by
  have ht : truthy st.sessionId = false := by rw [h]; rfl
  rw [onSummarizeClick_falsy st ht]
  exact ⟨rfl, rfl, h⟩

theorem summarize_without_session_witness :
    init.sessionId = .null ∧
      (onSummarizeClick init).2.messages =
        init.messages ++ [⟨"message bot", "No session to summarize yet."⟩] ∧
      (onSummarizeClick init).2.requests = init.requests :=
  ⟨rfl, congrArg (fun r => r.2.messages) (summarize_without_session init rfl).1,
   (summarize_without_session init rfl).2.1⟩

/-- C7, as stated, fails: in the session `abc123`, the parsed response
`{"summary": "", "error": "bad"}` has a `summary` field, and the message
appended reads `Summary: bad`, built from the `error` field, not `Summary: `
built from the `summary` field. -/
theorem summarize_empty_summary_shows_error :
    getProp emptySummaryReply "summary" = .ok (.str "") ∧
      summarizeSent.sessionId = .str "abc123" ∧
      (onSummarizeSettled (.ok emptySummaryReply) summarizeSent).2.messages =
        summarizeSent.messages ++ [⟨"message bot", "Summary: bad"⟩] ∧
      (onSummarizeSettled (.ok emptySummaryReply) summarizeSent).2.messages ≠
        summarizeSent.messages ++ [⟨"message bot", "Summary: "⟩] := by
  refine ⟨rfl, rfl, rfl, ?_⟩
  decide

/-- C7, amended: with a session id `s` stored (a truthy value), the
summarize click handler adds the single request `/summarize` with body
`{session_id: s}` and renders nothing; and for every parsed response,
handled in any later state, the handler completes and appends exactly one
message with class `message bot`.  Its text is `Summary: ` followed by the
string form of the `summary` field when that field is truthy (for a string:
non-empty), and of the `error` field otherwise (`undefined` when there is
none); when the body is `null`, so that reading it throws, or the value to
show has no string form, the text is `Error summarizing conversation`. -/
theorem summarize_request_and_rendering (st later : State) (data : JsVal) :
    (truthy st.sessionId = true →
        onSummarizeClick st =
          (.ok true,
            { st with requests := st.requests ++ [Request.summarize st.sessionId] })) ∧
      (∃ text, onSummarizeSettled (.ok data) later =
        (.ok (), { later with messages :=
          later.messages ++ [⟨"message bot", text⟩] })) ∧
      (∀ summary err s, getProp data "summary" = .ok summary →
        getProp data "error" = .ok err →
        toStr (if truthy summary then summary else err) = .ok s →
        onSummarizeSettled (.ok data) later =
          (.ok (), { later with messages :=
            later.messages ++ [⟨"message bot", "Summary: " ++ s⟩] })) ∧
      (∀ summary err e, getProp data "summary" = .ok summary →
        getProp data "error" = .ok err →
        toStr (if truthy summary then summary else err) = .error e →
        onSummarizeSettled (.ok data) later =
          (.ok (), { later with messages :=
            later.messages ++ [⟨"message bot", "Error summarizing conversation"⟩] })) ∧
      (∀ e, getProp data "summary" = .error e →
        onSummarizeSettled (.ok data) later =
          (.ok (), { later with messages :=
            later.messages ++ [⟨"message bot", "Error summarizing conversation"⟩] })) := by
  refine ⟨onSummarizeClick_truthy st, onSummarizeSettled_state _ later, ?_, ?_, ?_⟩
  · intro summary err s h1 h2 h3
    rw [onSummarizeSettled_ok, h1]
    dsimp only
    cases ht : truthy summary with
    | true =>
      rw [ht] at h3
      simp only [if_true] at h3 ⊢
      rw [h3]
    | false =>
      rw [ht] at h3
      simp only [Bool.false_eq_true, if_false] at h3 ⊢
      rw [h2]
      dsimp only
      rw [h3]
  · intro summary err e h1 h2 h3
    rw [onSummarizeSettled_ok, h1]
    dsimp only
    cases ht : truthy summary with
    | true =>
      rw [ht] at h3
      simp only [if_true] at h3 ⊢
      rw [h3]
    | false =>
      rw [ht] at h3
      simp only [Bool.false_eq_true, if_false] at h3 ⊢
      rw [h2]
      dsimp only
      rw [h3]
  · intro e h1
    rw [onSummarizeSettled_ok, h1]

theorem summarize_request_and_rendering_witness :
    truthy firstTurnDone.sessionId = true ∧
      (onSummarizeClick firstTurnDone).2.requests =
        firstTurnDone.requests ++ [Request.summarize (.str "abc123")] ∧
      (onSummarizeSettled (.ok shortSummaryReply) summarizeSent).2.messages =
        summarizeSent.messages ++ [⟨"message bot", "Summary: short summary"⟩] ∧
      (onSummarizeSettled (.ok errorOnlyReply) summarizeSent).2.messages =
        summarizeSent.messages ++ [⟨"message bot", "Summary: bad"⟩] ∧
      (onSummarizeSettled (.ok opaqueSummaryReply) summarizeSent).2.messages =
        summarizeSent.messages ++ [⟨"message bot", "Error summarizing conversation"⟩] ∧
      (onSummarizeSettled (.ok .null) summarizeSent).2.messages =
        summarizeSent.messages ++ [⟨"message bot", "Error summarizing conversation"⟩] :=
  ⟨rfl,
   congrArg (fun r => r.2.requests)
     ((summarize_request_and_rendering firstTurnDone summarizeSent shortSummaryReply).1 rfl),
   congrArg (fun r => r.2.messages)
     ((summarize_request_and_rendering firstTurnDone summarizeSent shortSummaryReply).2.2.1
       (.str "short summary") .undefined "short summary" rfl rfl rfl),
   congrArg (fun r => r.2.messages)
     ((summarize_request_and_rendering firstTurnDone summarizeSent errorOnlyReply).2.2.1
       .undefined (.str "bad") "bad" rfl rfl rfl),
   congrArg (fun r => r.2.messages)
     ((summarize_request_and_rendering firstTurnDone summarizeSent
       opaqueSummaryReply).2.2.2.1
       (.obj [("toString", .num ⟨1, by decide⟩)]) .undefined .typeError rfl rfl rfl),
   congrArg (fun r => r.2.messages)
     ((summarize_request_and_rendering firstTurnDone summarizeSent .null).2.2.2.2
       .typeError rfl)⟩

/-- C8: when the summarize request fails (either promise rejects, for
whatever reason `e`), the handler completes without throwing, appends the
single message `Error summarizing conversation` with class `message bot`,
and the stored session id is the one from before. -/
theorem summarize_failure_renders_error (st : State) (e : JsError) :
    (onSummarizeSettled (.error e) st).1 = .ok () ∧
      (onSummarizeSettled (.error e) st).2.messages =
        st.messages ++ [⟨"message bot", "Error summarizing conversation"⟩] ∧
      (onSummarizeSettled (.error e) st).2.sessionId = st.sessionId ∧
      (onSummarizeSettled (.error e) st).2.requests = st.requests := by
  rw [onSummarizeSettled_error]
  exact ⟨rfl, rfl, rfl, rfl⟩

/-- C9: after any sequence of events from the loaded page, the stored
session id is `null`, or it is a truthy value and is the `session_id`
carried by a parsed chat response among those events (a response without
that field carries none and stores nothing); from a state where it is set,
no sequence of events makes it `null`, or any other falsy value, again; a
step that is not the handling of a parsed chat response (typing, submit, a
failed chat request, summarize click, summarize response or failure) leaves
it as it is; and the handling of a parsed chat response either leaves it as
it is or stores the truthy `session_id` of that response. -/
theorem session_id_only_from_chat_responses :
    (∀ evs, (run init evs).sessionId = .null ∨
        (truthy (run init evs).sessionId = true ∧
          (run init evs).sessionId ∈ receivedSessionIds evs)) ∧
      (∀ st evs, st.sessionId ≠ .null → (run st evs).sessionId ≠ .null) ∧
      (∀ st evs, truthy st.sessionId = true → truthy (run st evs).sessionId = true) ∧
      (∀ st ev, (∀ data, ev ≠ .chatSettled (.ok data)) →
        (step st ev).sessionId = st.sessionId) ∧
      (∀ st data,
        (step st (.chatSettled (.ok data))).sessionId = st.sessionId ∨
          (getProp data "session_id" = .ok (step st (.chatSettled (.ok data))).sessionId ∧
            truthy (step st (.chatSettled (.ok data))).sessionId = true)) := by
  refine ⟨?_, run_sessionId_ne_null, run_sessionId_truthy, ?_, ?_⟩
  · intro evs
    exact run_sessionId init evs
  · intro st ev hev
    rcases step_sessionId st ev with h | ⟨data, _, h, _⟩
    · exact h
    · exact absurd h (hev data)
  · intro st data
    rcases step_sessionId st (.chatSettled (.ok data)) with h | ⟨d, sid, hev, hg, ht, hs⟩
    · exact Or.inl h
    · have hd : data = d := Except.ok.inj (Event.chatSettled.inj hev)
      subst hd
      refine Or.inr ⟨?_, ?_⟩
      · rw [hs]
        exact hg
      · rw [hs]
        exact ht

theorem session_id_only_from_chat_responses_witness :
    (run firstTurnDone [.input "again", .submit, .chatSettled (.ok emptySessionReply),
        .summarizeClick, .summarizeSettled (.error .networkError)]).sessionId ≠ .null ∧
      truthy (run firstTurnDone [.input "again", .submit,
        .chatSettled (.ok noSessionReply)]).sessionId = true ∧
      (step firstTurnDone .summarizeClick).sessionId = firstTurnDone.sessionId ∧
      (step firstTurnDone (.chatSettled (.error .networkError))).sessionId =
        firstTurnDone.sessionId :=
  ⟨session_id_only_from_chat_responses.2.1 firstTurnDone _
      (fun h => JsVal.noConfusion (h : JsVal.str "abc123" = JsVal.null)),
   session_id_only_from_chat_responses.2.2.1 firstTurnDone _ rfl,
   session_id_only_from_chat_responses.2.2.2.1 firstTurnDone .summarizeClick
      (fun _ h => Event.noConfusion h),
   session_id_only_from_chat_responses.2.2.2.1 firstTurnDone
      (.chatSettled (.error .networkError))
      (fun _ h => Except.noConfusion (Event.chatSettled.inj h))⟩

/-- C10: `addMessage(text, role)` on a string `text` (the empty string
included) completes and yields the previous list followed by the single new
message with that text and the class `message ` followed by `role`; and for
every event step, and every sequence of steps, the message list before is a
prefix of the message list after. -/
theorem messages_append_only (text role : String) (st : State) :
    addMessage (.str text) role st =
        (.ok (), { st with messages := st.messages ++ [⟨"message " ++ role, text⟩] }) ∧
      (∀ ev, st.messages <+: (step st ev).messages) ∧
      (∀ evs, st.messages <+: (run st evs).messages) := by
  refine ⟨rfl, ?_, ?_⟩
  · intro ev
    obtain ⟨added, h⟩ := step_messages st ev
    exact ⟨added, h.symm⟩
  · intro evs
    obtain ⟨added, h⟩ := run_messages st evs
    exact ⟨added, h.symm⟩

end ChatWidget
